import Mathlib

/-!
Verification development for the single-endpoint data-analyst service
(`src/app.py`).  The handler `process_questions` is embedded shallowly:

* Python string operations (`strip`, `replace`, `lower`, substring tests,
  the `https?://[^\s]+` regex search) become executable functions on
  `List Char` / `String`;
* `json.loads` (strict mode, CPython `json` module semantics) becomes a
  fuel-based executable parser `Json.loads`;
* the external collaborators (UTF-8 decoding of uploads, the web fetch +
  HTML-table extraction, and the Gemini model call) become oracles carried
  in an `Env` record, exactly as the spec's design notes suggest
  ("the scrape step as an injected external collaborator ... and the model
  call as a second injected collaborator");
* the FastAPI dispatch layer (framework code, outside this repository) is
  modelled only to the extent claims need it: a missing required multipart
  field is rejected by FastAPI's validation with a 422 response before the
  handler body runs.

Numbers in JSON are kept as their source lexemes (`Json.num "1.5"`): no
claim compares numerically equal but textually distinct literals, and this
keeps the development away from floating-point semantics.  Lone UTF-16
surrogates produced by `\uXXXX` escapes (representable in Python strings,
not in Lean `Char`) are collapsed by `Char.ofNat`; no claim exercises them.
-/

/-- Whitespace for Python's `str.strip()` and the regex class `\s`
(ASCII range: space, tab, newline, carriage return, form feed, vertical
tab).  Non-ASCII whitespace is outside the modelled scope. -/
def isPySpace (c : Char) : Bool :=
  c = ' ' || c = '\t' || c = '\n' || c = '\r' || c = '\x0c' || c = '\x0b'

/-- Whitespace skipped by CPython's `json` scanner: space, tab, newline,
carriage return (exactly the JSON whitespace set). -/
def isJsonWs (c : Char) : Bool :=
  c = ' ' || c = '\t' || c = '\n' || c = '\r'

/-- Python `str.strip()` on a character list: drop the leading and the
trailing run of whitespace. -/
def pyStripL (l : List Char) : List Char :=
  (l.dropWhile isPySpace).rdropWhile isPySpace

/-- Python `str.strip()` on a `String`. -/
def pyStrip (s : String) : String := String.mk (pyStripL s.data)

/-- Python `s.replace('\n', '')` : replacing a single character by the
empty string deletes every occurrence of that character. -/
def removeNewlines (l : List Char) : List Char :=
  l.filter (fun c => ¬ (c = '\n'))

/-- Python `s.replace('  ', ' ')` : scan left to right; each time two
consecutive spaces are found, emit one space and continue after the pair
(non-overlapping replacement, exactly Python's `str.replace`). -/
def collapsePairs : List Char → List Char
  | [] => []
  | [c] => [c]
  | c :: d :: rest =>
    if c = ' ' ∧ d = ' ' then ' ' :: collapsePairs rest
    else c :: collapsePairs (d :: rest)

/-- Lines 151-154 of `src/app.py`:
`generated_text = response.text.strip()` followed by
`cleaned_response = generated_text.replace('\n', '').replace('  ', ' ').strip()`. -/
def cleanChars (l : List Char) : List Char :=
  pyStripL (collapsePairs (removeNewlines (pyStripL l)))

/-- The cleaned model reply as a `String` (the value of `cleaned_response`). -/
def cleanStr (s : String) : String := String.mk (cleanChars s.data)

/-- Python `pat` being a leading segment of `l` (used for substring tests
and for the literal parts of the URL regex). -/
def leadsWith : List Char → List Char → Bool
  | _, [] => true
  | [], _ :: _ => false
  | c :: cs, p :: ps => if c = p then leadsWith cs ps else false

/-- Python's `pat in s` substring test on character lists. -/
def hasSub : List Char → List Char → Bool
  | [], pat => leadsWith [] pat
  | c :: cs, pat => leadsWith (c :: cs) pat || hasSub cs pat

/-- Python `str.lower()` restricted to its ASCII action (the substring
checked in the source, `"scrape"`, is ASCII). -/
def pyLower (s : String) : String := String.mk (s.data.map Char.toLower)

/-- Match of the regex `https?://[^\s]+` anchored at the start of `cs` for
one concrete scheme literal: the literal, then a maximal nonempty run of
non-whitespace characters. -/
def schemeMatch (scheme cs : List Char) : Option (List Char) :=
  if leadsWith cs scheme then
    let rest := cs.drop scheme.length
    let body := rest.takeWhile (fun c => ¬ (isPySpace c = true))
    if body = [] then none else some (scheme ++ body)
  else none

/-- Match of `https?://[^\s]+` anchored at the start of `cs`.  The greedy
`s?` tries `https://` first; when the text starts with `http://` the two
alternatives are disjoint, so trying `https://` then `http://` is exact. -/
def urlAt (cs : List Char) : Option (List Char) :=
  match schemeMatch (("https://").data) cs with
  | some m => some m
  | none => schemeMatch (("http://").data) cs

/-- `re.search(r'https?://[^\s]+', text)` (line 41 of `src/app.py`):
leftmost match, scanning positions left to right. -/
def findUrl : List Char → Option String
  | [] => none
  | c :: cs =>
    match urlAt (c :: cs) with
    | some m => some (String.mk m)
    | none => findUrl cs

/-! ### The strict JSON value model and `json.loads` -/

/-- JSON values as produced by `json.loads`.  Numbers (including the
CPython extensions `NaN`, `Infinity`, `-Infinity`) are kept as their
source lexemes; objects are association lists in insertion order with the
last duplicate winning, mirroring `dict` construction. -/
inductive Json where
  | null : Json
  | bool : Bool → Json
  | num : String → Json
  | str : String → Json
  | arr : List Json → Json
  | obj : List (String × Json) → Json

/-- Value of one hexadecimal digit, as accepted by `\uXXXX` escapes. -/
def hexDigit (c : Char) : Option Nat :=
  if c.isDigit then some (c.toNat - 48)
  else if 'a' ≤ c ∧ c ≤ 'f' then some (c.toNat - 87)
  else if 'A' ≤ c ∧ c ≤ 'F' then some (c.toNat - 55)
  else none

/-- Four hexadecimal digits, the payload of a `\uXXXX` escape. -/
def hex4 : List Char → Option (Nat × List Char)
  | a :: b :: c :: d :: rest =>
    match hexDigit a, hexDigit b, hexDigit c, hexDigit d with
    | some x, some y, some z, some w => some (((x * 16 + y) * 16 + z) * 16 + w, rest)
    | _, _, _, _ => none
  | _ => none

/-- CPython `py_scanstring` in strict mode, after the opening quote:
literal control characters (below 0x20) are rejected, the eight named
escapes and `\uXXXX` (with surrogate-pair combination) are decoded, and
the scan ends at the closing quote.  `acc` collects decoded characters in
reverse. -/
def scanString : Nat → List Char → List Char → Option (String × List Char)
  | 0, _, _ => none
  | Nat.succ fuel, cs, acc =>
    match cs with
    | [] => none
    | '"' :: rest => some (String.mk acc.reverse, rest)
    | '\\' :: rest =>
      match rest with
      | [] => none
      | e :: rest₂ =>
        if e = '"' then scanString fuel rest₂ ('"' :: acc)
        else if e = '\\' then scanString fuel rest₂ ('\\' :: acc)
        else if e = '/' then scanString fuel rest₂ ('/' :: acc)
        else if e = 'b' then scanString fuel rest₂ ('\x08' :: acc)
        else if e = 'f' then scanString fuel rest₂ ('\x0c' :: acc)
        else if e = 'n' then scanString fuel rest₂ ('\n' :: acc)
        else if e = 'r' then scanString fuel rest₂ ('\r' :: acc)
        else if e = 't' then scanString fuel rest₂ ('\t' :: acc)
        else if e = 'u' then
          match hex4 rest₂ with
          | none => none
          | some (n, rest₃) =>
            if 0xD800 ≤ n ∧ n ≤ 0xDBFF then
              match rest₃ with
              | '\\' :: 'u' :: rest₄ =>
                match hex4 rest₄ with
                | none => none
                | some (m, rest₅) =>
                  if 0xDC00 ≤ m ∧ m ≤ 0xDFFF then
                    scanString fuel rest₅
                      (Char.ofNat (0x10000 + (n - 0xD800) * 0x400 + (m - 0xDC00)) :: acc)
                  else scanString fuel rest₃ (Char.ofNat n :: acc)
              | _ => scanString fuel rest₃ (Char.ofNat n :: acc)
            else scanString fuel rest₃ (Char.ofNat n :: acc)
        else none
    | c :: rest =>
      if c.toNat < 0x20 then none else scanString fuel rest (c :: acc)

/-- Optional fraction and exponent parts of the JSON number regex
`(-?(?:0|[1-9]\d*))(\.\d+)?([eE][-+]?\d+)?`: returns the matched lexeme
characters and the remaining input. -/
def lexFracExp (cs : List Char) : List Char × List Char :=
  let fr :=
    match cs with
    | '.' :: rest =>
      let ds := rest.takeWhile Char.isDigit
      if ds = [] then (([] : List Char), cs) else ('.' :: ds, rest.dropWhile Char.isDigit)
    | _ => (([] : List Char), cs)
  let ex :=
    match fr.2 with
    | e :: rest =>
      if e = 'e' ∨ e = 'E' then
        match rest with
        | s :: rest₂ =>
          if s = '+' ∨ s = '-' then
            let ds := rest₂.takeWhile Char.isDigit
            if ds = [] then (([] : List Char), fr.2)
            else (e :: s :: ds, rest₂.dropWhile Char.isDigit)
          else
            let ds := rest.takeWhile Char.isDigit
            if ds = [] then (([] : List Char), fr.2)
            else (e :: ds, rest.dropWhile Char.isDigit)
        | [] => (([] : List Char), fr.2)
      else (([] : List Char), fr.2)
    | [] => (([] : List Char), fr.2)
  (fr.1 ++ ex.1, ex.2)

/-- Unsigned part of the JSON number regex: `0` or a nonzero digit
followed by digits, then optional fraction and exponent. -/
def lexUInt : List Char → Option (List Char × List Char)
  | '0' :: rest =>
    let fe := lexFracExp rest
    some ('0' :: fe.1, fe.2)
  | c :: rest =>
    if c.isDigit then
      let ds := (c :: rest).takeWhile Char.isDigit
      let fe := lexFracExp ((c :: rest).dropWhile Char.isDigit)
      some (ds ++ fe.1, fe.2)
    else none
  | [] => none

/-- The full JSON number regex `(-?(?:0|[1-9]\d*))(\.\d+)?([eE][-+]?\d+)?`
anchored at the start of the input. -/
def lexNumber (cs : List Char) : Option (List Char × List Char) :=
  match cs with
  | '-' :: rest =>
    match lexUInt rest with
    | some (ds, r) => some ('-' :: ds, r)
    | none => none
  | _ => lexUInt cs

/-- Skip JSON whitespace. -/
def skipWs (cs : List Char) : List Char := cs.dropWhile isJsonWs

/-- Insertion into the association list built for a JSON object: a
duplicate key overwrites the stored value in place, as `dict` assignment
does. -/
def objUpd : List (String × Json) → String → Json → List (String × Json)
  | [], k, v => [(k, v)]
  | (k', v') :: rest, k, v =>
    if k' = k then (k', v) :: rest else (k', v') :: objUpd rest k v

/-- Work items of the JSON scanner: a value, the items of an array after
the opening bracket, or the members of an object after the opening brace
(accumulators carry what was already parsed). -/
inductive PMode where
  | val : List Char → PMode
  | arrI : List Char → List Json → PMode
  | objI : List Char → List (String × Json) → PMode

/-- CPython's `_scan_once` / `parse_array` / `parse_object` in order:
string, object, array, `null`, `true`, `false`, number,
`NaN`, `Infinity`, `-Infinity`.  Values are expected at the exact
position (callers skip whitespace); fuel only guarantees termination and
is chosen generously by `Json.loads`. -/
def parseF : Nat → PMode → Option (Json × List Char)
  | 0, _ => none
  | Nat.succ fuel, PMode.val cs =>
    match cs with
    | '"' :: rest =>
      match scanString (Nat.succ fuel) rest [] with
      | some (s, r) => some (Json.str s, r)
      | none => none
    | '\x7b' :: rest =>
      match skipWs rest with
      | '\x7d' :: r₂ => some (Json.obj [], r₂)
      | cs₂ => parseF fuel (PMode.objI cs₂ [])
    | '[' :: rest =>
      match skipWs rest with
      | ']' :: r₂ => some (Json.arr [], r₂)
      | cs₂ => parseF fuel (PMode.arrI cs₂ [])
    | 'n' :: 'u' :: 'l' :: 'l' :: rest => some (Json.null, rest)
    | 't' :: 'r' :: 'u' :: 'e' :: rest => some (Json.bool true, rest)
    | 'f' :: 'a' :: 'l' :: 's' :: 'e' :: rest => some (Json.bool false, rest)
    | other =>
      match lexNumber other with
      | some (lx, rest) => some (Json.num (String.mk lx), rest)
      | none =>
        if leadsWith other (("NaN").data) then some (Json.num ("NaN"), other.drop 3)
        else if leadsWith other (("Infinity").data) then
          some (Json.num ("Infinity"), other.drop 8)
        else if leadsWith other (("-Infinity").data) then
          some (Json.num ("-Infinity"), other.drop 9)
        else none
  | Nat.succ fuel, PMode.arrI cs acc =>
    match parseF fuel (PMode.val cs) with
    | none => none
    | some (v, rest) =>
      match skipWs rest with
      | ']' :: r₂ => some (Json.arr (v :: acc).reverse, r₂)
      | ',' :: r₂ => parseF fuel (PMode.arrI (skipWs r₂) (v :: acc))
      | _ => none
  | Nat.succ fuel, PMode.objI cs acc =>
    match cs with
    | '"' :: rest =>
      match scanString (Nat.succ fuel) rest [] with
      | none => none
      | some (k, r₂) =>
        match skipWs r₂ with
        | ':' :: r₃ =>
          match parseF fuel (PMode.val (skipWs r₃)) with
          | none => none
          | some (v, r₄) =>
            match skipWs r₄ with
            | '\x7d' :: r₅ => some (Json.obj (objUpd acc k v), r₅)
            | ',' :: r₅ => parseF fuel (PMode.objI (skipWs r₅) (objUpd acc k v))
            | _ => none
        | _ => none
    | _ => none

/-- `json.loads` on a Python `str` (strict mode, the call on line 158 of
`src/app.py`): skip leading whitespace, scan one value, require only
whitespace to remain; any failure raises `JSONDecodeError`, modelled as
`none`. -/
def Json.loads (s : String) : Option Json :=
  match parseF (2 * s.data.length + 2) (PMode.val (skipWs s.data)) with
  | some (v, rest) => if skipWs rest = [] then some v else none
  | none => none

/-! ### The request pipeline of `process_questions` (src/app.py lines 15-169) -/

/-- One uploaded multipart file: a filename and its raw bytes. -/
structure UploadPart where
  filename : String
  content : List Nat

/-- A POST request to `/api` (or `/api/`): the three multipart fields the
handler declares.  `questions` is the required `questions.txt` part
(`none` means the part is absent from the body), `image` the optional
`image.png`, `dataCsv` the optional `data.csv`. -/
structure Request where
  questions : Option UploadPart
  image : Option UploadPart
  dataCsv : Option UploadPart

/-- External collaborators of the handler, injected as oracles:
`apiKey` is `os.getenv("GEMINI_API_KEY")`; `decode` is UTF-8 decoding of
uploaded bytes (`.error` carries the exception text); `fetch` is the
composite of `requests.get` + `raise_for_status` + BeautifulSoup parsing
of the first `table.wikitable` (lines 46-53: `.error` is any exception's
text, `.ok none` means no such table, `.ok (some rows)` gives the table's
`tr` rows as lists of cell texts, exactly what the extraction loops
traverse); `model` is `model.generate_content(...).text` (`.error` is any
exception's text, `.ok` the reply text, with `""` standing for an
empty-or-missing `response.text`). -/
structure Env where
  apiKey : Option String
  decode : List Nat → Except String String
  fetch : String → Except String (Option (List (List String)))
  model : String → Except String String

/-- What the endpoint produces: a JSON body (FastAPI serializes the value
returned by the handler) or an HTTP error with a status and detail. -/
inductive ApiResponse where
  | body : Json → ApiResponse
  | httpError : Nat → String → ApiResponse

/-- Status code of a response, when it is an error response. -/
def statusOf : ApiResponse → Option Nat
  | ApiResponse.body _ => none
  | ApiResponse.httpError s _ => some s

/-- Python truthiness of `api_key` on line 24: `os.getenv` returns `None`
when unset, and both `None` and the empty string are falsy. -/
def keyOk : Option String → Bool
  | none => false
  | some s => ¬ (s = "")

/-- Python `.strip()` of a cell text (`th.get_text().strip()` /
`td.get_text().strip()`, lines 63 and 69). -/
def stripCell (s : String) : String := pyStrip s

/-- Header cells of the scraped table (lines 60-63): the cells of the
first `tr`, text-stripped; empty when the table has no rows. -/
def tableHeaders (tbl : List (List String)) : List String :=
  (tbl.headD []).map stripCell

/-- Data rows of the scraped table (lines 66-71): every `tr` after the
first, cells text-stripped, rows with no cells skipped (`if cols:`). -/
def tableDataRows (tbl : List (List String)) : List (List String) :=
  ((tbl.drop 1).map (fun r => r.map stripCell)).filter (fun r => ¬ (r = []))

/-- Python `",".join(cells)`. -/
def joinComma : List String → String
  | [] => ""
  | [s] => s
  | s :: rest => s ++ (",") ++ joinComma rest

/-- Python `"\n".join(parts)`. -/
def joinNl : List String → String
  | [] => ""
  | [s] => s
  | s :: rest => s ++ ("\n") ++ joinNl rest

/-- The row-emitting loop on lines 77-78: one comma-joined line per row,
each terminated by a newline. -/
def rowLines : List (List String) → String
  | [] => ""
  | r :: rs => joinComma r ++ ("\n") ++ rowLines rs

/-- Lines 54-78: serialization of the found table.  When both the header
list and the data-row list are nonempty (`if headers and rows:`), the
result is the `Scraped Data from {url}:` label line, the comma-joined
header line, and the first 100 data rows (`rows[:100]`); otherwise the
scraped text stays empty. -/
def formatWikitable (url : String) (tbl : List (List String)) : String :=
  if ¬ (tableHeaders tbl = []) ∧ ¬ (tableDataRows tbl = []) then
    ("Scraped Data from ") ++ url ++ (":\n") ++
      joinComma (tableHeaders tbl) ++ ("\n") ++ rowLines ((tableDataRows tbl).take 100)
  else ""

/-- Line 39: the scrape trigger, `"wikipedia.org" in questions_text or
"scrape" in questions_text.lower()`. -/
def scrapeTrigger (q : String) : Bool :=
  hasSub q.data (("wikipedia.org").data) || hasSub (pyLower q).data (("scrape").data)

/-- Lines 39-43: the URL the handler fetches, when it fetches at all —
the scrape trigger must hold and the regex must find a URL-shaped token. -/
def fetchAttempt (q : String) : Option String :=
  if scrapeTrigger q then findUrl q.data else none

/-- Lines 38-82: the value of `scraped_data`.  A fetch/parse exception is
caught and replaced by the inline note `Error scraping data: {e}`
(line 81); a missing table, or a degenerate one, leaves the empty
string. -/
def scrapeData (fetch : String → Except String (Option (List (List String)))) (q : String) :
    String :=
  match fetchAttempt q with
  | none => ""
  | some url =>
    match fetch url with
    | Except.error e => ("Error scraping data: ") ++ e
    | Except.ok none => ""
    | Except.ok (some tbl) => formatWikitable url tbl

/-- The fixed instruction text of the f-string on lines 106-129, with the
CSV splice point (line 125, `{csv_text if data_csv else ''}`) and the
question splice point (line 128) filled in. -/
def promptTemplate (csvText q : String) : String :=
  ("You are a data analyst with web scraping and data analysis capabilities.\n\nCRITICAL INSTRUCTIONS:\n- Use ONLY the provided CSV data for all calculations. Do NOT guess, estimate, or hallucinate any values. Do NOT use prior knowledge or external information.\n- If a value cannot be computed directly from the provided data, return null for that field.\n- For each answer, show step-by-step calculation using only the CSV data. Reference the CSV header and rows as needed.\n- Do NOT output anything that cannot be derived from the CSV data.\n- If the CSV data is missing or incomplete, return null for all fields that cannot be computed.\n- Respond with ONLY a valid JSON array or object - no markdown, no explanations, no extra text.\n- Do NOT use line breaks (\\n) or extra whitespace in your JSON response.\n- Make JSON compact and properly formatted.\n- For ANY visualization/chart/plot requests: Return the original question text as the value instead of creating images.\n- Do NOT generate base64 images, plots, or charts - just return the question text for those fields.\n- Perform all calculations and data analysis accurately.\n- Return exact numerical values but not as strings.\n\nWARNING: If you hallucinate or use information not present in the CSV, your answer will be considered incorrect.\n\nBelow is the CSV data to use for all calculations:\n")
    ++ csvText ++ ("\n\nRequest to process:\n") ++ q ++ ("\n")

/-- Lines 84-129: `full_prompt`.  `prompt_parts[0]` is the `Questions:`
entry, never joined in (the join is over `prompt_parts[1:]`); the
appended parts are, in order, the scraped-data note (only when
`scraped_data` is truthy, line 86), the image-presence note carrying just
the filename (line 92 — the image bytes are read but never used), and the
decoded CSV text (line 100).  The comprehension filters falsy (empty)
parts before `"\n".join`. -/
def fullPrompt (q scraped : String) (img : Option UploadPart) (csv : Option String) : String :=
  let parts1 : List String :=
    (if scraped = "" then [] else [("Scraped Data: ") ++ scraped]) ++
    (match img with
     | some ip => [("Image file provided: ") ++ ip.filename]
     | none => []) ++
    (match csv with
     | some c => [("CSV Data: ") ++ c]
     | none => [])
  promptTemplate (match csv with | some c => c | none => "") q
    ++ joinNl (parts1.filter (fun s => ¬ (s = "")))

/-- Lines 148-166: normalization of a delivered (nonempty) model reply —
clean the text, try `json.loads`, return the parsed value as the body, or
wrap the cleaned text in the fallback object. -/
def replyBody (t : String) : ApiResponse :=
  match Json.loads (cleanStr t) with
  | some v => ApiResponse.body v
  | none =>
    ApiResponse.body
      (Json.obj [(("response"), Json.str (cleanStr t)), (("status"), Json.str ("success"))])

/-- Lines 131-169: the model call and everything after it.  An exception
from `generate_content` is caught on line 168 and surfaced as a 500.  An
empty `response.text` raises the inner `HTTPException(500)` of line 149,
which — being an `Exception` — is itself caught by the same handler and
re-wrapped (its `str()` is `500: No response from Gemini API`), still a
500. -/
def modelPhase (model : String → Except String String) (p : String) : ApiResponse :=
  match model p with
  | Except.error e => ApiResponse.httpError 500 (("Error calling Gemini API: ") ++ e)
  | Except.ok t =>
    if t = "" then
      ApiResponse.httpError 500 (("Error calling Gemini API: 500: No response from Gemini API"))
    else replyBody t

/-- Lines 96-129 continued: after the questions text is decoded and the
scrape step ran, read `data.csv` if present (a decode failure is a 400,
line 102), build `full_prompt`, and run the model phase.  Reading
`image.png` (line 91) is pure byte access in this model and cannot fail;
its bytes are discarded. -/
def afterQuestions (env : Env) (q : String) (img csv : Option UploadPart) : ApiResponse :=
  match csv with
  | some cp =>
    match env.decode cp.content with
    | Except.error e => ApiResponse.httpError 400 (("Error reading data.csv: ") ++ e)
    | Except.ok c => modelPhase env.model (fullPrompt q (scrapeData env.fetch q) img (some c))
  | none => modelPhase env.model (fullPrompt q (scrapeData env.fetch q) img none)

/-- The handler body (lines 22-169), entered with the validated parts:
check the API key (lines 23-25, a falsy key is a 500), decode
`questions.txt` (lines 31-35, a failure is a 400), then proceed. -/
def handle (env : Env) (qp : UploadPart) (img csv : Option UploadPart) : ApiResponse :=
  if keyOk env.apiKey then
    match env.decode qp.content with
    | Except.error e => ApiResponse.httpError 400 (("Error reading questions.txt: ") ++ e)
    | Except.ok q => afterQuestions env q img csv
  else ApiResponse.httpError 500 ("GEMINI_API_KEY environment variable not set")

/-- Detail placeholder for FastAPI's validation error body (the exact
body is a JSON document; only the 422 status matters to any claim). -/
def fieldRequiredDetail : String := "Field required"

/-- The routed endpoint for POST `/api` and `/api/`.  The dispatch layer
is FastAPI framework code, outside this repository: by its documented
validation behavior, a request whose multipart body lacks the required
`questions.txt` field is answered with a 422 validation error before the
handler body of `src/app.py` runs; otherwise the handler runs. -/
def dispatch (env : Env) (req : Request) : ApiResponse :=
  match req.questions with
  | none => ApiResponse.httpError 422 fieldRequiredDetail
  | some qp => handle env qp req.image req.dataCsv

/-- The composed prompt the model is called with, when the request gets
that far (`none` when an error response is produced earlier). -/
def promptOf (env : Env) (req : Request) : Option String :=
  match req.questions with
  | none => none
  | some qp =>
    if keyOk env.apiKey then
      match env.decode qp.content with
      | Except.error _ => none
      | Except.ok q =>
        match req.dataCsv with
        | some cp =>
          match env.decode cp.content with
          | Except.error _ => none
          | Except.ok c => some (fullPrompt q (scrapeData env.fetch q) req.image (some c))
        | none => some (fullPrompt q (scrapeData env.fetch q) req.image none)
    else none

/-- The `data.csv` part, if present, decodes successfully (the shape of
request under which the handler reaches the model call once the earlier
gates pass). -/
def csvOk (env : Env) (req : Request) : Prop :=
  req.dataCsv = none ∨
    ∃ cp c, req.dataCsv = some cp ∧ env.decode cp.content = Except.ok c

/-! ### Helper lemmas -/

/-- A pattern matches at the start of any list it begins. -/
lemma leadsWith_self_append (p r : List Char) : leadsWith (p ++ r) p = true := by
  induction p with
  | nil => simp [leadsWith]
  | cons c cs ih => simpa [leadsWith] using ih

/-- The empty pattern is a substring of everything (Python: `"" in s`). -/
lemma hasSub_nil_pat (l : List Char) : hasSub l [] = true := by
  cases l <;> simp [hasSub, leadsWith]

/-- A pattern occurring contiguously inside a list is found by `hasSub`. -/
lemma hasSub_middle (x p y : List Char) : hasSub (x ++ (p ++ y)) p = true := by
  induction x with
  | nil =>
    cases p with
    | nil => simpa using hasSub_nil_pat y
    | cons c cs => simp [hasSub, leadsWith, leadsWith_self_append]
  | cons a x ih => simp [hasSub, ih]

/-- The head surviving `dropWhile` fails the predicate. -/
lemma dropWhile_head_false (p : Char → Bool) (l : List Char) (c : Char)
    (h : (l.dropWhile p).head? = some c) : p c = false := by
  induction l with
  | nil => simp [List.dropWhile] at h
  | cons a l ih =>
    rw [List.dropWhile_cons] at h
    by_cases hp : p a
    · rw [if_pos hp] at h
      exact ih h
    · rw [if_neg hp] at h
      simp only [List.head?_cons, Option.some.injEq] at h
      subst h
      simpa using hp

/-- `dropWhile` is the identity when the head already fails the
predicate. -/
lemma dropWhile_of_head_false (p : Char → Bool) (l : List Char) (c : Char)
    (h : l.head? = some c) (hc : p c = false) : l.dropWhile p = l := by
  cases l with
  | nil => rfl
  | cons a l =>
    simp only [List.head?_cons, Option.some.injEq] at h
    subst h
    rw [List.dropWhile_cons, if_neg (by simp [hc])]

/-- Python `strip` is idempotent. -/
lemma pyStripL_idem (l : List Char) : pyStripL (pyStripL l) = pyStripL l := by
  unfold pyStripL
  have hdw :
      ((l.dropWhile isPySpace).rdropWhile isPySpace).dropWhile isPySpace =
        (l.dropWhile isPySpace).rdropWhile isPySpace := by
    cases hs : ((l.dropWhile isPySpace).rdropWhile isPySpace).head? with
    | none =>
      rw [List.head?_eq_none_iff] at hs
      rw [hs]
      rfl
    | some c =>
      refine dropWhile_of_head_false _ _ c hs ?_
      obtain ⟨t, ht⟩ := List.rdropWhile_prefix isPySpace (l.dropWhile isPySpace)
      have hm : (l.dropWhile isPySpace).head? = some c := by
        cases hsplit : (l.dropWhile isPySpace).rdropWhile isPySpace with
        | nil => rw [hsplit] at hs; simp at hs
        | cons a s' =>
          rw [hsplit] at hs ht
          simp only [List.head?_cons, Option.some.injEq] at hs
          subst hs
          rw [← ht]
          rfl
      exact dropWhile_head_false isPySpace l c hm
  rw [hdw, List.rdropWhile_idempotent]

/-- Deleting newlines is the identity on newline-free text. -/
lemma removeNewlines_of_none (l : List Char)
    (h : hasSub l [('\n' : Char)] = false) : removeNewlines l = l := by
  induction l with
  | nil => rfl
  | cons c cs ih =>
    simp only [hasSub, Bool.or_eq_false_iff] at h
    have hc : ¬ (c = '\n') := by
      intro hcn
      subst hcn
      simp [leadsWith] at h
    unfold removeNewlines at ih ⊢
    rw [List.filter_cons_of_pos (by simp [hc]), ih h.2]

/-- Collapsing space pairs is the identity on text with no two adjacent
spaces. -/
lemma collapsePairs_of_none (l : List Char)
    (h : hasSub l [(' ' : Char), (' ' : Char)] = false) : collapsePairs l = l := by
  induction l using collapsePairs.induct with
  | case1 => rfl
  | case2 c => rfl
  | case3 c d rest hcd ih =>
    exfalso
    obtain ⟨hc, hd⟩ := hcd
    subst hc
    subst hd
    simp [hasSub, leadsWith] at h
  | case4 c d rest hcd ih =>
    have hrest : hasSub (d :: rest) [(' ' : Char), (' ' : Char)] = false := by
      simp only [hasSub, Bool.or_eq_false_iff] at h ⊢
      exact h.2
    rw [collapsePairs, if_neg hcd, ih hrest]

/-- Under the no-newline / no-double-space conditions on the stripped
reply, the whole cleanup of lines 151-154 is just `strip`. -/
lemma cleanChars_of_clean (l : List Char)
    (hn : hasSub (pyStripL l) [('\n' : Char)] = false)
    (hd : hasSub (pyStripL l) [(' ' : Char), (' ' : Char)] = false) :
    cleanChars l = pyStripL l := by
  unfold cleanChars
  rw [removeNewlines_of_none _ hn, collapsePairs_of_none _ hd, pyStripL_idem]

/-! ### Claims C1 and C2: response normalization -/

/-- Claim C1, amended.  When the stripped model reply contains no newline
and no two consecutive spaces, the cleanup of lines 151-154 is exactly
`strip`, so if the stripped reply parses as strict JSON the endpoint's
response body is precisely that parsed value: the normalization does not
alter it.  (Without those conditions the claim fails, see
`claim_C1_cex`: the cleanup edits string contents.) -/
theorem claim_C1 (m : String → Except String String) (p t : String) (v : Json)
    (hm : m p = Except.ok t)
    (hn : hasSub (pyStripL t.data) [('\n' : Char)] = false)
    (hd : hasSub (pyStripL t.data) [(' ' : Char), (' ' : Char)] = false)
    (hp : Json.loads (String.mk (pyStripL t.data)) = some v) :
    modelPhase m p = ApiResponse.body v := by
  have hne : ¬ (t = "") := by
    intro h
    subst h
    have hz : Json.loads (String.mk (pyStripL ("" : String).data)) = none := rfl
    rw [hz] at hp
    exact Option.noConfusion hp
  unfold modelPhase
  rw [hm]
  dsimp only
  rw [if_neg hne]
  unfold replyBody cleanStr
  rw [cleanChars_of_clean _ hn hd, hp]

/-- Witness for `claim_C1` at the concrete reply `[1, 2]`. -/
theorem claim_C1_witness :
    hasSub (pyStripL (("[1, 2]" : String)).data) [('\n' : Char)] = false ∧
    hasSub (pyStripL (("[1, 2]" : String)).data) [(' ' : Char), (' ' : Char)] = false ∧
    Json.loads (String.mk (pyStripL (("[1, 2]" : String)).data)) =
      some (Json.arr [Json.num ("1"), Json.num ("2")]) ∧
    modelPhase (fun _ => Except.ok ("[1, 2]")) ("prompt") =
      ApiResponse.body (Json.arr [Json.num ("1"), Json.num ("2")]) :=
  ⟨rfl, rfl, rfl,
    claim_C1 (fun _ => Except.ok ("[1, 2]")) ("prompt") ("[1, 2]")
      (Json.arr [Json.num ("1"), Json.num ("2")]) rfl rfl rfl rfl⟩

/-- Counterexample to claim C1 as stated.  The model reply
`{"a":"x  y"}` is itself valid strict JSON denoting the object with field
`a` bound to the string `x  y` (two spaces), and its cleaned form also
parses — yet the endpoint's body binds `a` to `x y` (one space): the
`replace('  ', ' ')` on line 154 altered the string contents, so the
response does not equal the JSON value denoted by the original reply. -/
theorem claim_C1_cex :
    modelPhase (fun _ => Except.ok ("\x7b\"a\":\"x  y\"\x7d")) ("prompt") =
      ApiResponse.body (Json.obj [(("a"), Json.str ("x y"))]) ∧
    Json.loads (cleanStr ("\x7b\"a\":\"x  y\"\x7d")) =
      some (Json.obj [(("a"), Json.str ("x y"))]) ∧
    Json.loads ("\x7b\"a\":\"x  y\"\x7d") =
      some (Json.obj [(("a"), Json.str ("x  y"))]) ∧
    ¬ (Json.obj [(("a"), Json.str ("x y"))] = Json.obj [(("a"), Json.str ("x  y"))]) :=
  ⟨rfl, rfl, rfl, by simp⟩

/-- Claim C2.  A delivered (nonempty — an empty reply is rejected with a
500 on lines 148-149, claim C8) model reply whose cleaned text does not
parse as JSON is wrapped on lines 163-166: the body is exactly the object
with `response` bound to the cleaned text and `status` bound to
`success`. -/
theorem claim_C2 (m : String → Except String String) (p t : String)
    (hm : m p = Except.ok t) (hne : ¬ (t = ""))
    (h : Json.loads (cleanStr t) = none) :
    modelPhase m p =
      ApiResponse.body
        (Json.obj [(("response"), Json.str (cleanStr t)),
                   (("status"), Json.str ("success"))]) := by
  unfold modelPhase
  rw [hm]
  dsimp only
  rw [if_neg hne]
  unfold replyBody
  rw [h]

/-- Witness for `claim_C2` at the concrete reply `hello`. -/
theorem claim_C2_witness :
    ¬ (("hello" : String) = "") ∧
    Json.loads (cleanStr ("hello")) = none ∧
    modelPhase (fun _ => Except.ok ("hello")) ("prompt") =
      ApiResponse.body
        (Json.obj [(("response"), Json.str (cleanStr ("hello"))),
                   (("status"), Json.str ("success"))]) :=
  ⟨by decide, rfl,
    claim_C2 (fun _ => Except.ok ("hello")) ("prompt") ("hello") rfl (by decide) rfl⟩

/-! ### Claim C3: shape of the scraped-table serialization -/

/-- The row loop emits the rows newline-joined, with one trailing
newline. -/
lemma rowLines_eq (rs : List (List String)) (h : ¬ (rs = [])) :
    rowLines rs = joinNl (rs.map joinComma) ++ ("\n") := by
  induction rs with
  | nil => exact absurd rfl h
  | cons r rs ih =>
    cases rs with
    | nil => simp [rowLines, joinNl]
    | cons r₂ rs₂ =>
      rw [show rowLines (r :: r₂ :: rs₂) = joinComma r ++ ("\n") ++ rowLines (r₂ :: rs₂) from rfl]
      rw [ih (by simp)]
      simp [joinNl, String.append_assoc]

/-- Taking from a nonempty list gives a nonempty list (positive count). -/
lemma take100_ne_nil (rs : List (List String)) (h : ¬ (rs = [])) :
    ¬ (rs.take 100 = []) := by
  cases rs with
  | nil => exact absurd rfl h
  | cons r rs => simp

/-- Claim C3.  When the found table has nonempty headers and at least one
nonempty data row, the scraped text is exactly: the `Scraped Data from
{url}:` label line, then the comma-joined header row, then the first 100
comma-joined data rows — one line per row, newline-joined with a trailing
newline — and never more than 100 data rows (`rows[:100]`, line 77,
drops everything beyond). -/
theorem claim_C3 (url : String) (tbl : List (List String))
    (hh : ¬ (tableHeaders tbl = [])) (hr : ¬ (tableDataRows tbl = [])) :
    formatWikitable url tbl =
      ("Scraped Data from ") ++ url ++ (":\n") ++
        joinNl (joinComma (tableHeaders tbl) ::
          ((tableDataRows tbl).take 100).map joinComma) ++ ("\n") ∧
    ((tableDataRows tbl).take 100).length ≤ 100 := by
  constructor
  · unfold formatWikitable
    rw [if_pos ⟨hh, hr⟩]
    have htake := take100_ne_nil (tableDataRows tbl) hr
    rw [rowLines_eq _ htake]
    cases hm : ((tableDataRows tbl).take 100).map joinComma with
    | nil =>
      simp only [List.map_eq_nil_iff] at hm
      exact absurd hm htake
    | cons a rest =>
      simp [joinNl, String.append_assoc]
  · simp [List.length_take_le 100 (tableDataRows tbl)]

/-- Witness for `claim_C3`: a table with untrimmed header cells, one
empty row (skipped), and two data rows. -/
theorem claim_C3_witness :
    ¬ (tableHeaders [[" H1 ", "H2"], ["a", " b "], [], ["c", "d"]] = []) ∧
    ¬ (tableDataRows [[" H1 ", "H2"], ["a", " b "], [], ["c", "d"]] = []) ∧
    (formatWikitable ("http://u") [[" H1 ", "H2"], ["a", " b "], [], ["c", "d"]] =
      ("Scraped Data from ") ++ ("http://u") ++ (":\n") ++
        joinNl (joinComma (tableHeaders [[" H1 ", "H2"], ["a", " b "], [], ["c", "d"]]) ::
          ((tableDataRows [[" H1 ", "H2"], ["a", " b "], [], ["c", "d"]]).take 100).map
            joinComma) ++ ("\n") ∧
    ((tableDataRows [[" H1 ", "H2"], ["a", " b "], [], ["c", "d"]]).take 100).length ≤ 100) :=
  ⟨by decide, by decide,
    claim_C3 ("http://u") [[" H1 ", "H2"], ["a", " b "], [], ["c", "d"]]
      (by decide) (by decide)⟩

/-! ### Claim C4: the scrape trigger policy -/

/-- The scrape step reads the fetch oracle only at the attempted URL. -/
lemma scrapeData_agree (f₁ f₂ : String → Except String (Option (List (List String))))
    (q : String) (hagree : ∀ u, fetchAttempt q = some u → f₁ u = f₂ u) :
    scrapeData f₁ q = scrapeData f₂ q := by
  unfold scrapeData
  cases ha : fetchAttempt q with
  | none => rfl
  | some url =>
    dsimp only
    rw [hagree url ha]

/-- Equal `scraped_data` values make the post-decode part of the handler
agree, whatever the fetch oracles did. -/
lemma afterQuestions_scrape_eq (k : Option String) (d : List Nat → Except String String)
    (f₁ f₂ : String → Except String (Option (List (List String))))
    (m : String → Except String String) (q : String) (img csv : Option UploadPart)
    (hs : scrapeData f₁ q = scrapeData f₂ q) :
    afterQuestions ⟨k, d, f₁, m⟩ q img csv = afterQuestions ⟨k, d, f₂, m⟩ q img csv := by
  unfold afterQuestions
  cases csv with
  | none =>
    dsimp only
    rw [hs]
  | some cp =>
    dsimp only
    cases hdc : d cp.content with
    | error e => rfl
    | ok c => rw [hs]

/-- Equal `scraped_data` values make the whole handler agree. -/
lemma handle_scrape_eq (k : Option String) (d : List Nat → Except String String)
    (f₁ f₂ : String → Except String (Option (List (List String))))
    (m : String → Except String String) (qp : UploadPart) (img csv : Option UploadPart)
    (q : String) (hd : d qp.content = Except.ok q)
    (hs : scrapeData f₁ q = scrapeData f₂ q) :
    handle ⟨k, d, f₁, m⟩ qp img csv = handle ⟨k, d, f₂, m⟩ qp img csv := by
  unfold handle
  cases hk : keyOk k with
  | false => simp [hk]
  | true =>
    simp only [hk, if_true, hd]
    exact afterQuestions_scrape_eq k d f₁ f₂ m q img csv hs

/-- Fetch-oracle agreement at the attempted URL propagates through the
whole handler. -/
lemma handle_fetch_agree (k : Option String) (d : List Nat → Except String String)
    (f₁ f₂ : String → Except String (Option (List (List String))))
    (m : String → Except String String) (qp : UploadPart) (img csv : Option UploadPart)
    (q : String) (hd : d qp.content = Except.ok q)
    (hagree : ∀ u, fetchAttempt q = some u → f₁ u = f₂ u) :
    handle ⟨k, d, f₁, m⟩ qp img csv = handle ⟨k, d, f₂, m⟩ qp img csv :=
  handle_scrape_eq k d f₁ f₂ m qp img csv q hd (scrapeData_agree f₁ f₂ q hagree)

/-- Claim C4.  The fetch is attempted exactly when the question text
contains `wikipedia.org` literally or `scrape` case-insensitively AND the
regex finds a URL-shaped token, and the attempted URL is the first regex
match; when no fetch is attempted — or whenever two fetch oracles agree
at the one attempted URL — the endpoint's behavior is entirely
independent of the fetch oracle. -/
theorem claim_C4 (q u : String) (k : Option String)
    (d : List Nat → Except String String)
    (f₁ f₂ : String → Except String (Option (List (List String))))
    (m : String → Except String String) (qp : UploadPart) (img csv : Option UploadPart)
    (hd : d qp.content = Except.ok q)
    (hagree : ∀ u', fetchAttempt q = some u' → f₁ u' = f₂ u') :
    (fetchAttempt q = some u ↔
      (hasSub q.data (("wikipedia.org").data) || hasSub (pyLower q).data (("scrape").data)) = true ∧
      findUrl q.data = some u) ∧
    handle ⟨k, d, f₁, m⟩ qp img csv = handle ⟨k, d, f₂, m⟩ qp img csv := by
  constructor
  · unfold fetchAttempt scrapeTrigger
    cases ht : (hasSub q.data (("wikipedia.org").data) || hasSub (pyLower q).data (("scrape").data)) with
    | true => simp
    | false => simp
  · exact handle_fetch_agree k d f₁ f₂ m qp img csv q hd hagree

/-- Witness for `claim_C4`: the text `please scrape http://ex/t now`
triggers via `scrape`, the first URL-shaped token is `http://ex/t`, and
two fetch oracles agreeing there give identical responses. -/
theorem claim_C4_witness :
    (fetchAttempt ("please scrape http://ex/t now") = some ("http://ex/t") ↔
      (hasSub (("please scrape http://ex/t now").data) (("wikipedia.org").data) ||
        hasSub (pyLower ("please scrape http://ex/t now")).data (("scrape").data)) = true ∧
      findUrl (("please scrape http://ex/t now").data) = some ("http://ex/t")) ∧
    handle ⟨some ("key"), fun _ => Except.ok ("please scrape http://ex/t now"),
        fun _ => Except.ok none, fun _ => Except.ok ("ok")⟩
      ⟨("questions.txt"), []⟩ none none =
    handle ⟨some ("key"), fun _ => Except.ok ("please scrape http://ex/t now"),
        fun u => if u = ("http://ex/t") then Except.ok none else Except.error ("other"),
        fun _ => Except.ok ("ok")⟩
      ⟨("questions.txt"), []⟩ none none :=
  claim_C4 ("please scrape http://ex/t now") ("http://ex/t") (some ("key"))
    (fun _ => Except.ok ("please scrape http://ex/t now"))
    (fun _ => Except.ok none)
    (fun u => if u = ("http://ex/t") then Except.ok none else Except.error ("other"))
    (fun _ => Except.ok ("ok")) ⟨("questions.txt"), []⟩ none none rfl
    (by
      intro u' h
      rw [show fetchAttempt ("please scrape http://ex/t now") = some ("http://ex/t") from rfl] at h
      cases h
      simp)

/-! ### Claim C5: a scrape failure is non-fatal -/

/-- A string with a nonempty left part is nonempty. -/
lemma str_append_ne_empty (a b : String) (ha : ¬ (a.data = [])) : ¬ (a ++ b = "") := by
  intro h
  have hd : (a ++ b).data = [] := by rw [h]
  rw [String.data_append] at hd
  exact ha (List.append_eq_nil.mp hd).1

/-- `hasSub` holds once the character list is decomposed around the
pattern. -/
lemma hasSub_of_decomp (s : String) (x pat y : List Char) (h : s.data = x ++ (pat ++ y)) :
    hasSub s.data pat = true := by
  rw [h]
  exact hasSub_middle x pat y

/-- Newline-joining a cons starts with the head. -/
lemma joinNl_cons (x : String) (L : List String) :
    ∃ y, joinNl (x :: L) = x ++ y := by
  cases L with
  | nil => exact ⟨"", by simp [joinNl]⟩
  | cons t ts =>
    exact ⟨("\n") ++ joinNl (t :: ts), by simp [joinNl, String.append_assoc]⟩

/-- `hasSub` holds once the string is decomposed around the pattern. -/
lemma hasSub_str_decomp (p x pat y : String) (h : p = x ++ (pat ++ y)) :
    hasSub p.data pat.data = true := by
  subst h
  rw [String.data_append, String.data_append]
  exact hasSub_middle x.data pat.data y.data

/-- A nonempty `scraped_data` value appears verbatim inside the composed
prompt (it is carried by the `Scraped Data:` part, which survives the
falsy-part filter). -/
lemma hasSub_fullPrompt_scraped (q s : String) (img : Option UploadPart)
    (csv : Option String) (hs : ¬ (s = "")) :
    hasSub (fullPrompt q s img csv).data s.data = true := by
  unfold fullPrompt
  rw [if_neg hs]
  simp only [List.cons_append, List.nil_append]
  rw [List.filter_cons_of_pos]
  · obtain ⟨y, hy⟩ :=
      joinNl_cons ((("Scraped Data: ") ++ s))
        (((match img with
           | some ip => [("Image file provided: ") ++ ip.filename]
           | none => []) ++
          (match csv with
           | some c => [("CSV Data: ") ++ c]
           | none => [])).filter (fun t => ¬ (t = "")))
    apply hasSub_str_decomp _
      ((promptTemplate (match csv with | some c => c | none => "") q) ++ ("Scraped Data: "))
      s y
    rw [hy]
    simp only [String.append_assoc]
    cases csv <;> rfl
  · simp only [decide_eq_true_eq]
    exact str_append_ne_empty ("Scraped Data: ") s (by decide)

/-- Once the key check, the questions decode, and (when present) the CSV
decode succeed, the endpoint's answer is exactly the model phase applied
to the composed prompt, and `promptOf` reports that prompt. -/
lemma dispatch_reaches (env : Env) (req : Request) (qp : UploadPart) (q : String)
    (hq : req.questions = some qp) (hk : keyOk env.apiKey = true)
    (hd : env.decode qp.content = Except.ok q) :
    (req.dataCsv = none →
      promptOf env req = some (fullPrompt q (scrapeData env.fetch q) req.image none) ∧
      dispatch env req =
        modelPhase env.model (fullPrompt q (scrapeData env.fetch q) req.image none)) ∧
    (∀ cp c, req.dataCsv = some cp → env.decode cp.content = Except.ok c →
      promptOf env req = some (fullPrompt q (scrapeData env.fetch q) req.image (some c)) ∧
      dispatch env req =
        modelPhase env.model (fullPrompt q (scrapeData env.fetch q) req.image (some c))) := by
  constructor
  · intro hcsv
    constructor
    · simp [promptOf, hq, hk, hd, hcsv]
    · simp [dispatch, handle, afterQuestions, hq, hk, hd, hcsv]
  · intro cp c hcp hcc
    constructor
    · simp [promptOf, hq, hk, hd, hcp, hcc]
    · simp [dispatch, handle, afterQuestions, hq, hk, hd, hcp, hcc]

/-- Claim C5.  When the scrape step is triggered and the fetch (or parse)
fails, the exception is caught on lines 80-81: the request still reaches
prompt composition and the model call — the response is exactly the
model phase on the composed prompt, so its success/error outcome is
decided by the model stage alone — and the prompt embeds the descriptive
`Error scraping data: {e}` note; the scrape failure by itself never
produces an error response. -/
theorem claim_C5 (env : Env) (req : Request) (qp : UploadPart) (q url e : String)
    (hq : req.questions = some qp) (hk : keyOk env.apiKey = true)
    (hd : env.decode qp.content = Except.ok q)
    (ha : fetchAttempt q = some url) (hf : env.fetch url = Except.error e)
    (hcsv : csvOk env req) :
    ∃ p, promptOf env req = some p ∧
      hasSub p.data ((("Error scraping data: ") ++ e)).data = true ∧
      dispatch env req = modelPhase env.model p := by
  have hs : scrapeData env.fetch q = ("Error scraping data: ") ++ e := by
    unfold scrapeData
    rw [ha]
    dsimp only
    rw [hf]
  have hsne : ¬ (scrapeData env.fetch q = "") := by
    rw [hs]
    exact str_append_ne_empty _ _ (by decide)
  have hreach := dispatch_reaches env req qp q hq hk hd
  rcases hcsv with hnone | ⟨cp, c, hcp, hcc⟩
  · obtain ⟨hp, hdisp⟩ := hreach.1 hnone
    refine ⟨fullPrompt q (scrapeData env.fetch q) req.image none, hp, ?_, hdisp⟩
    rw [← hs]
    exact hasSub_fullPrompt_scraped q _ req.image none hsne
  · obtain ⟨hp, hdisp⟩ := hreach.2 cp c hcp hcc
    refine ⟨fullPrompt q (scrapeData env.fetch q) req.image (some c), hp, ?_, hdisp⟩
    rw [← hs]
    exact hasSub_fullPrompt_scraped q _ req.image (some c) hsne

/-- Witness for `claim_C5`: an unreachable URL (`fetch` always raising
`boom`) with a triggering question text. -/
theorem claim_C5_witness :
    ∃ p,
      promptOf
        ⟨some ("key"), fun _ => Except.ok ("scrape http://a b"),
          fun _ => Except.error ("boom"), fun _ => Except.ok ("done")⟩
        ⟨some ⟨("questions.txt"), []⟩, none, none⟩ = some p ∧
      hasSub p.data ((("Error scraping data: ") ++ ("boom"))).data = true ∧
      dispatch
        ⟨some ("key"), fun _ => Except.ok ("scrape http://a b"),
          fun _ => Except.error ("boom"), fun _ => Except.ok ("done")⟩
        ⟨some ⟨("questions.txt"), []⟩, none, none⟩ =
      modelPhase (fun _ => Except.ok ("done")) p :=
  claim_C5
    ⟨some ("key"), fun _ => Except.ok ("scrape http://a b"),
      fun _ => Except.error ("boom"), fun _ => Except.ok ("done")⟩
    ⟨some ⟨("questions.txt"), []⟩, none, none⟩
    ⟨("questions.txt"), []⟩ ("scrape http://a b") ("http://a") ("boom")
    rfl rfl rfl rfl rfl (Or.inl rfl)

/-! ### Claims C6 and C7: missing part and missing key -/

/-- Claim C6, amended.  A POST whose multipart body lacks the required
`questions.txt` field is rejected by the framework's validation with HTTP
status 422 (not 400): the field is declared required on line 18 and
FastAPI answers a missing required field with a 422 validation error
before the handler body ever runs. -/
theorem claim_C6 (env : Env) (req : Request) (h : req.questions = none) :
    dispatch env req = ApiResponse.httpError 422 fieldRequiredDetail := by
  unfold dispatch
  rw [h]

/-- Witness for `claim_C6` at a concrete key-bearing environment and an
empty request. -/
theorem claim_C6_witness :
    dispatch
      ⟨some ("key"), fun _ => Except.ok (""), fun _ => Except.ok none,
        fun _ => Except.ok ("x")⟩
      ⟨none, none, none⟩ = ApiResponse.httpError 422 fieldRequiredDetail :=
  claim_C6
    ⟨some ("key"), fun _ => Except.ok (""), fun _ => Except.ok none,
      fun _ => Except.ok ("x")⟩
    ⟨none, none, none⟩ rfl

/-- Counterexample to claim C6 as stated: for the request with no
`questions.txt` part the endpoint's status is 422, not 400. -/
theorem claim_C6_cex :
    dispatch
      ⟨some ("key"), fun _ => Except.ok (""), fun _ => Except.ok none,
        fun _ => Except.error ("down")⟩
      ⟨none, some ⟨("image.png"), [1]⟩, none⟩ =
      ApiResponse.httpError 422 fieldRequiredDetail ∧
    ¬ (statusOf
        (dispatch
          ⟨some ("key"), fun _ => Except.ok (""), fun _ => Except.ok none,
            fun _ => Except.error ("down")⟩
          ⟨none, some ⟨("image.png"), [1]⟩, none⟩) = some 400) :=
  ⟨rfl, by decide⟩

/-- Claim C7, amended.  For every request that does carry the required
`questions.txt` part, a missing or empty `GEMINI_API_KEY` makes the
handler fail immediately with the 500 of lines 23-25, regardless of
everything else in the request (the key check precedes even the decoding
of `questions.txt`).  A request without the part is instead answered by
the framework's 422 validation error, key or no key (see
`claim_C7_cex`). -/
theorem claim_C7 (env : Env) (req : Request) (qp : UploadPart)
    (hq : req.questions = some qp)
    (hk : env.apiKey = none ∨ env.apiKey = some ("")) :
    dispatch env req =
      ApiResponse.httpError 500 ("GEMINI_API_KEY environment variable not set") := by
  have hko : keyOk env.apiKey = false := by
    rcases hk with h | h <;> rw [h] <;> rfl
  unfold dispatch
  rw [hq]
  unfold handle
  rw [hko]
  rfl

/-- Witness for `claim_C7`: empty-string key, a request with an
undecodable `questions.txt` part — still the 500. -/
theorem claim_C7_witness :
    dispatch
      ⟨some (""), fun _ => Except.error ("bad utf-8"), fun _ => Except.ok none,
        fun _ => Except.ok ("x")⟩
      ⟨some ⟨("questions.txt"), [255]⟩, none, none⟩ =
      ApiResponse.httpError 500 ("GEMINI_API_KEY environment variable not set") :=
  claim_C7
    ⟨some (""), fun _ => Except.error ("bad utf-8"), fun _ => Except.ok none,
      fun _ => Except.ok ("x")⟩
    ⟨some ⟨("questions.txt"), [255]⟩, none, none⟩
    ⟨("questions.txt"), [255]⟩ rfl (Or.inr rfl)

/-- Counterexample to claim C7 as stated ("for every request ...
regardless of the request's contents"): with the key unset, a request
lacking the `questions.txt` part still gets the framework's 422, not a
500. -/
theorem claim_C7_cex :
    dispatch
      ⟨none, fun _ => Except.ok (""), fun _ => Except.ok none,
        fun _ => Except.ok ("x")⟩
      ⟨none, none, none⟩ = ApiResponse.httpError 422 fieldRequiredDetail ∧
    ¬ (statusOf
        (dispatch
          ⟨none, fun _ => Except.ok (""), fun _ => Except.ok none,
            fun _ => Except.ok ("x")⟩
          ⟨none, none, none⟩) = some 500) :=
  ⟨rfl, by decide⟩

/-! ### Claim C8: model failure and empty model output -/

/-- Claim C8.  When the pipeline reaches the model call and the call
raises (caught on line 168) or delivers empty text (rejected on lines
148-149), the endpoint fails with HTTP status 500 and never produces a
success body. -/
theorem claim_C8 (env : Env) (req : Request) (qp : UploadPart) (q e : String)
    (hq : req.questions = some qp) (hk : keyOk env.apiKey = true)
    (hd : env.decode qp.content = Except.ok q)
    (hcsv : csvOk env req)
    (hm : (∀ p, env.model p = Except.error e) ∨ (∀ p, env.model p = Except.ok (""))) :
    (∃ det, dispatch env req = ApiResponse.httpError 500 det) ∧
    ∀ j, ¬ (dispatch env req = ApiResponse.body j) := by
  have key : ∀ p, ∃ det, modelPhase env.model p = ApiResponse.httpError 500 det := by
    intro p
    rcases hm with hm | hm
    · exact ⟨("Error calling Gemini API: ") ++ e, by unfold modelPhase; rw [hm p]⟩
    · refine ⟨("Error calling Gemini API: 500: No response from Gemini API"), ?_⟩
      unfold modelPhase
      rw [hm p]
      dsimp only
      rw [if_pos rfl]
  have hreach := dispatch_reaches env req qp q hq hk hd
  have hdisp : ∃ p', dispatch env req = modelPhase env.model p' := by
    rcases hcsv with hnone | ⟨cp, c, hcp, hcc⟩
    · exact ⟨_, (hreach.1 hnone).2⟩
    · exact ⟨_, (hreach.2 cp c hcp hcc).2⟩
  obtain ⟨p', hp'⟩ := hdisp
  obtain ⟨det, h500⟩ := key p'
  refine ⟨⟨det, by rw [hp', h500]⟩, ?_⟩
  intro j hj
  rw [hp', h500] at hj
  exact ApiResponse.noConfusion hj

/-- Witness for `claim_C8`: a model oracle that always raises. -/
theorem claim_C8_witness :
    (∃ det,
      dispatch
        ⟨some ("key"), fun _ => Except.ok ("hi"), fun _ => Except.ok none,
          fun _ => Except.error ("down")⟩
        ⟨some ⟨("questions.txt"), []⟩, none, none⟩ = ApiResponse.httpError 500 det) ∧
    ∀ j, ¬ (dispatch
        ⟨some ("key"), fun _ => Except.ok ("hi"), fun _ => Except.ok none,
          fun _ => Except.error ("down")⟩
        ⟨some ⟨("questions.txt"), []⟩, none, none⟩ = ApiResponse.body j) :=
  claim_C8
    ⟨some ("key"), fun _ => Except.ok ("hi"), fun _ => Except.ok none,
      fun _ => Except.error ("down")⟩
    ⟨some ⟨("questions.txt"), []⟩, none, none⟩
    ⟨("questions.txt"), []⟩ ("hi") ("down") rfl rfl rfl (Or.inl rfl)
    (Or.inl (fun _ => rfl))

/-! ### Claim C9: image bytes never reach the prompt -/

/-- Claim C9.  Two requests identical except for the bytes of the
`image.png` part (both present, same filename) yield the same composed
prompt and the same response: the handler reads the image bytes (line
91) but only the filename enters the prompt (line 92), so the contents
cannot influence anything. -/
theorem claim_C9 (env : Env) (req₁ req₂ : Request) (nm : String) (b₁ b₂ : List Nat)
    (h₁ : req₁.image = some ⟨nm, b₁⟩) (h₂ : req₂.image = some ⟨nm, b₂⟩)
    (hq : req₁.questions = req₂.questions) (hc : req₁.dataCsv = req₂.dataCsv) :
    promptOf env req₁ = promptOf env req₂ ∧ dispatch env req₁ = dispatch env req₂ := by
  cases req₁ with
  | mk q1 i1 c1 =>
    cases req₂ with
    | mk q2 i2 c2 =>
      simp only at h₁ h₂ hq hc
      subst h₁
      subst h₂
      subst hq
      subst hc
      constructor
      · unfold promptOf
        cases q1 with
        | none => rfl
        | some qp =>
          dsimp only
          cases hk : keyOk env.apiKey with
          | false => simp [hk]
          | true =>
            simp only [hk, if_true]
            cases hdq : env.decode qp.content with
            | error e => rfl
            | ok q =>
              dsimp only
              cases c1 with
              | none => rfl
              | some cp =>
                dsimp only
                cases env.decode cp.content with
                | error e => rfl
                | ok c => rfl
      · unfold dispatch
        cases q1 with
        | none => rfl
        | some qp =>
          dsimp only
          unfold handle
          cases hk : keyOk env.apiKey with
          | false => simp [hk]
          | true =>
            simp only [hk, if_true]
            cases hdq : env.decode qp.content with
            | error e => rfl
            | ok q =>
              dsimp only
              unfold afterQuestions
              cases c1 with
              | none => rfl
              | some cp =>
                dsimp only
                cases env.decode cp.content with
                | error e => rfl
                | ok c => rfl

/-- Witness for `claim_C9`: two requests with the same filename but
different image bytes. -/
theorem claim_C9_witness :
    promptOf
      ⟨some ("key"), fun _ => Except.ok ("hi"), fun _ => Except.ok none,
        fun _ => Except.ok ("done")⟩
      ⟨some ⟨("questions.txt"), [104]⟩, some ⟨("image.png"), [0]⟩, none⟩ =
    promptOf
      ⟨some ("key"), fun _ => Except.ok ("hi"), fun _ => Except.ok none,
        fun _ => Except.ok ("done")⟩
      ⟨some ⟨("questions.txt"), [104]⟩, some ⟨("image.png"), [1]⟩, none⟩ ∧
    dispatch
      ⟨some ("key"), fun _ => Except.ok ("hi"), fun _ => Except.ok none,
        fun _ => Except.ok ("done")⟩
      ⟨some ⟨("questions.txt"), [104]⟩, some ⟨("image.png"), [0]⟩, none⟩ =
    dispatch
      ⟨some ("key"), fun _ => Except.ok ("hi"), fun _ => Except.ok none,
        fun _ => Except.ok ("done")⟩
      ⟨some ⟨("questions.txt"), [104]⟩, some ⟨("image.png"), [1]⟩, none⟩ :=
  claim_C9
    ⟨some ("key"), fun _ => Except.ok ("hi"), fun _ => Except.ok none,
      fun _ => Except.ok ("done")⟩
    ⟨some ⟨("questions.txt"), [104]⟩, some ⟨("image.png"), [0]⟩, none⟩
    ⟨some ⟨("questions.txt"), [104]⟩, some ⟨("image.png"), [1]⟩, none⟩
    ("image.png") [0] [1] rfl rfl rfl rfl

/-! ### Claim C10: degenerate tables scrape to nothing -/

/-- Claim C10.  A found table with no header cells or no (nonempty) data
rows fails the `if headers and rows:` guard of line 74: `scraped_data`
stays the empty string, so the falsy-part filter drops the scraped-data
section from the prompt entirely — no header-only output exists — and
the composed prompt and the response are exactly those of a page with no
qualifying table at all. -/
theorem claim_C10 (url q : String) (tbl : List (List String))
    (f₁ f₂ : String → Except String (Option (List (List String))))
    (k : Option String) (d : List Nat → Except String String)
    (m : String → Except String String) (qp : UploadPart) (img csv : Option UploadPart)
    (h : tableHeaders tbl = [] ∨ tableDataRows tbl = [])
    (ha : fetchAttempt q = some url)
    (hf₁ : f₁ url = Except.ok (some tbl)) (hf₂ : f₂ url = Except.ok none)
    (hd : d qp.content = Except.ok q) :
    formatWikitable url tbl = "" ∧
    scrapeData f₁ q = "" ∧
    promptOf ⟨k, d, f₁, m⟩ ⟨some qp, img, csv⟩ = promptOf ⟨k, d, f₂, m⟩ ⟨some qp, img, csv⟩ ∧
    dispatch ⟨k, d, f₁, m⟩ ⟨some qp, img, csv⟩ =
      dispatch ⟨k, d, f₂, m⟩ ⟨some qp, img, csv⟩ := by
  have hfmt : formatWikitable url tbl = "" := by
    unfold formatWikitable
    rw [if_neg]
    rintro ⟨hh, hr⟩
    rcases h with h | h
    · exact hh h
    · exact hr h
  have hs₁ : scrapeData f₁ q = "" := by
    unfold scrapeData
    rw [ha]
    dsimp only
    rw [hf₁]
    dsimp only
    exact hfmt
  have hs₂ : scrapeData f₂ q = "" := by
    unfold scrapeData
    rw [ha]
    dsimp only
    rw [hf₂]
  have hss : scrapeData f₁ q = scrapeData f₂ q := by rw [hs₁, hs₂]
  refine ⟨hfmt, hs₁, ?_, ?_⟩
  · unfold promptOf
    dsimp only
    cases hk : keyOk k with
    | false => simp [hk]
    | true =>
      simp only [hk, if_true, hd]
      cases csv with
      | none => rw [hss]
      | some cp =>
        dsimp only
        cases d cp.content with
        | error e => rfl
        | ok c => rw [hss]
  · unfold dispatch
    dsimp only
    exact handle_scrape_eq k d f₁ f₂ m qp img csv q hd hss

/-- Witness for `claim_C10`: a header-only table (no data rows). -/
theorem claim_C10_witness :
    formatWikitable ("http://u") [["H1", "H2"]] = "" ∧
    scrapeData (fun _ => Except.ok (some [["H1", "H2"]])) ("scrape http://u x") = "" ∧
    promptOf
      ⟨some ("key"), fun _ => Except.ok ("scrape http://u x"),
        fun _ => Except.ok (some [["H1", "H2"]]), fun _ => Except.ok ("done")⟩
      ⟨some ⟨("questions.txt"), []⟩, none, none⟩ =
    promptOf
      ⟨some ("key"), fun _ => Except.ok ("scrape http://u x"),
        fun _ => Except.ok none, fun _ => Except.ok ("done")⟩
      ⟨some ⟨("questions.txt"), []⟩, none, none⟩ ∧
    dispatch
      ⟨some ("key"), fun _ => Except.ok ("scrape http://u x"),
        fun _ => Except.ok (some [["H1", "H2"]]), fun _ => Except.ok ("done")⟩
      ⟨some ⟨("questions.txt"), []⟩, none, none⟩ =
    dispatch
      ⟨some ("key"), fun _ => Except.ok ("scrape http://u x"),
        fun _ => Except.ok none, fun _ => Except.ok ("done")⟩
      ⟨some ⟨("questions.txt"), []⟩, none, none⟩ :=
  claim_C10 ("http://u") ("scrape http://u x") [["H1", "H2"]]
    (fun _ => Except.ok (some [["H1", "H2"]])) (fun _ => Except.ok none)
    (some ("key")) (fun _ => Except.ok ("scrape http://u x"))
    (fun _ => Except.ok ("done")) ⟨("questions.txt"), []⟩ none none
    (Or.inr rfl) rfl rfl rfl rfl
